import Mathlib

/-!
Verification of the result-normalization pipeline of valomap-videoanalyst.

The pipeline (post-processing in `src/services/openaiService.ts`, duplicated
in the Gemini binding `src/unnamed/part_001`) turns a raw vision-model
response into an `AnalysisResult`: it resolves a minimap rectangle (manual
bounds, else model-reported location, else a fixed default), keeps each
detected icon whose bounding-box center lies inside the rectangle, and maps
the center to a clamped percentage position inside the rectangle.

Numbers are modelled as exact rationals (`ℚ`): all source arithmetic here is
`+ - * /`, `Math.min`, `Math.max` on JS numbers, which we read as exact
arithmetic as the spec does.
-/

namespace Valomap

/-- Structure `MinimapBounds` from `src/types.ts`: a rectangle on a 0-1000 scale
relative to the full image. -/
structure MinimapBounds where
  ymin : ℚ
  xmin : ℚ
  ymax : ℚ
  xmax : ℚ
  deriving Repr, DecidableEq

/-- The `boundingBox` of a raw detection (`RawAgentDetection.boundingBox` in
`src/services/openaiService.ts`): same rectangle shape, locating one icon on
the full image. -/
structure BoundingBox where
  ymin : ℚ
  xmin : ℚ
  ymax : ℚ
  xmax : ℚ
  deriving Repr, DecidableEq

/-- Structure `RawAgentDetection` from `src/services/openaiService.ts`: one icon
reported by the vision model. -/
structure RawAgentDetection where
  team : String
  agentGuess : Option String
  boundingBox : BoundingBox
  deriving Repr, DecidableEq

/-- Structure `RawAnalysisResponse` from `src/services/openaiService.ts`: the parsed
model reply; `minimapLocation` is optional. -/
structure RawAnalysisResponse where
  mapName : String
  minimapLocation : Option MinimapBounds
  detectedIcons : List RawAgentDetection
  summary : String
  deriving Repr, DecidableEq

/-- Structure `PlayerPosition` from `src/types.ts`: a normalized player record with
x/y as minimap-relative percentages. -/
structure PlayerPosition where
  team : String
  agentGuess : Option String
  x : ℚ
  y : ℚ
  deriving Repr, DecidableEq

/-- Structure `AnalysisResult` from `src/types.ts`: the normalized, UI-facing value. -/
structure AnalysisResult where
  mapName : String
  minimapBounds : MinimapBounds
  players : List PlayerPosition
  summary : String
  deriving Repr, DecidableEq

/-- The bounds-resolution `if`/`else if`/`else` chain of
`analyzeWithOpenAI` (`src/services/openaiService.ts`, lines 118-126):
manual bounds win, else the model-reported `minimapLocation`, else the
fixed default rectangle `{xmin:0, ymin:0, xmax:200, ymax:200}`. -/
def resolveMapBox (manualBounds : Option MinimapBounds)
    (raw : RawAnalysisResponse) : MinimapBounds :=
  match manualBounds with
  | some mb => mb
  | none =>
    match raw.minimapLocation with
    | some loc => loc
    | none => { xmin := 0, ymin := 0, xmax := 200, ymax := 200 }

/-- The body of the `.map` callback in `analyzeWithOpenAI`
(`src/services/openaiService.ts`, lines 131-156): compute the bounding-box
center, test inclusive membership in `mapBox`, and for kept icons emit the
clamped relative percentages; `none` models the `null` return. -/
def processIcon (mapBox : MinimapBounds) (icon : RawAgentDetection) :
    Option PlayerPosition :=
  let mapWidth := mapBox.xmax - mapBox.xmin
  let mapHeight := mapBox.ymax - mapBox.ymin
  let iconCenterY := (icon.boundingBox.ymin + icon.boundingBox.ymax) / 2
  let iconCenterX := (icon.boundingBox.xmin + icon.boundingBox.xmax) / 2
  if iconCenterX ≥ mapBox.xmin ∧ iconCenterX ≤ mapBox.xmax ∧
      iconCenterY ≥ mapBox.ymin ∧ iconCenterY ≤ mapBox.ymax then
    let relX := ((iconCenterX - mapBox.xmin) / mapWidth) * 100
    let relY := ((iconCenterY - mapBox.ymin) / mapHeight) * 100
    some { team := icon.team
           agentGuess := icon.agentGuess
           x := max 0 (min 100 relX)
           y := max 0 (min 100 relY) }
  else
    none

/-- The post-processing of `analyzeWithOpenAI`
(`src/services/openaiService.ts`, lines 116-164): resolve the minimap
rectangle, run every detection through `processIcon`, drop the `null`s
(the `.map(...).filter(p !== null)` pair), and assemble the
`AnalysisResult`. -/
def postProcess (raw : RawAnalysisResponse)
    (manualBounds : Option MinimapBounds) : AnalysisResult :=
  let mapBox := resolveMapBox manualBounds raw
  { mapName := raw.mapName
    minimapBounds := mapBox
    players := raw.detectedIcons.filterMap (processIcon mapBox)
    summary := raw.summary }

/-- The bounds-resolution chain of the Gemini binding
`analyzeValorantScreenshot` (`src/unnamed/part_001`, lines 123-133),
transcribed separately from that file for comparison against
`resolveMapBox`. -/
def geminiResolveMapBox (manualBounds : Option MinimapBounds)
    (raw : RawAnalysisResponse) : MinimapBounds :=
  match manualBounds with
  | some mb => mb
  | none =>
    match raw.minimapLocation with
    | some loc => loc
    | none => { xmin := 0, ymin := 0, xmax := 200, ymax := 200 }

/-- The `.map` callback body of the Gemini binding
(`src/unnamed/part_001`, lines 139-169), transcribed separately from that
file for comparison against `processIcon`. -/
def geminiProcessIcon (mapBox : MinimapBounds) (icon : RawAgentDetection) :
    Option PlayerPosition :=
  let mapWidth := mapBox.xmax - mapBox.xmin
  let mapHeight := mapBox.ymax - mapBox.ymin
  let iconCenterY := (icon.boundingBox.ymin + icon.boundingBox.ymax) / 2
  let iconCenterX := (icon.boundingBox.xmin + icon.boundingBox.xmax) / 2
  if iconCenterX ≥ mapBox.xmin ∧ iconCenterX ≤ mapBox.xmax ∧
      iconCenterY ≥ mapBox.ymin ∧ iconCenterY ≤ mapBox.ymax then
    let relX := ((iconCenterX - mapBox.xmin) / mapWidth) * 100
    let relY := ((iconCenterY - mapBox.ymin) / mapHeight) * 100
    some { team := icon.team
           agentGuess := icon.agentGuess
           x := max 0 (min 100 relX)
           y := max 0 (min 100 relY) }
  else
    none

/-- The post-processing of the Gemini binding `analyzeValorantScreenshot`
(`src/unnamed/part_001`, lines 116-176), transcribed separately from that
file for comparison against `postProcess`. -/
def geminiPostProcess (raw : RawAnalysisResponse)
    (manualBounds : Option MinimapBounds) : AnalysisResult :=
  let mapBox := geminiResolveMapBox manualBounds raw
  { mapName := raw.mapName
    minimapBounds := mapBox
    players := raw.detectedIcons.filterMap (geminiProcessIcon mapBox)
    summary := raw.summary }

/-!
The minimap region selector (`src/components/MinimapSelector.tsx`),
modelled as a state machine over the component's React state
(`isDragging`, `startPos`, `currentPos`, `selection`), with one event per
handler. Mouse coordinates are the output of `getMousePos`, already on the
0-1000 scale.
-/

/-- A mouse position as produced by `getMousePos`
(`src/components/MinimapSelector.tsx`, lines 28-44). -/
structure MousePos where
  x : ℚ
  y : ℚ
  deriving Repr, DecidableEq

/-- The React state of `MinimapSelector`
(`src/components/MinimapSelector.tsx`, lines 14-17). -/
structure SelectorState where
  isDragging : Bool
  startPos : Option MousePos
  currentPos : Option MousePos
  selection : Option MinimapBounds
  deriving Repr, DecidableEq

/-- The initial React state of `MinimapSelector`: `useState(false)` /
`useState(null)` for each field. -/
def initialSelectorState : SelectorState :=
  { isDragging := false, startPos := none, currentPos := none,
    selection := none }

/-- The events the selector reacts to: the mount `useEffect` and the three
mouse handlers. -/
inductive SelectorEvent where
  | effectInit
  | mouseDown (pos : MousePos)
  | mouseMove (pos : MousePos)
  | mouseUp
  deriving Repr, DecidableEq

/-- One handler invocation of `MinimapSelector`
(`src/components/MinimapSelector.tsx`):
`effectInit` is the mount `useEffect` (lines 20-26) setting the default
rectangle `{xmin:0, ymin:0, xmax:250, ymax:250}` when nothing is selected;
`mouseDown` is `handleMouseDown` (lines 46-53); `mouseMove` is
`handleMouseMove` (lines 55-59); `mouseUp` is `handleMouseUp`
(lines 61-79), which installs the dragged rectangle only when its width
and height both exceed 20. -/
def selectorStep (s : SelectorState) (e : SelectorEvent) : SelectorState :=
  match e with
  | .effectInit =>
    if s.selection = none then
      { s with selection := some { xmin := 0, ymin := 0, xmax := 250, ymax := 250 } }
    else
      s
  | .mouseDown pos =>
    { s with startPos := some pos, currentPos := some pos,
             isDragging := true, selection := none }
  | .mouseMove pos =>
    if s.isDragging = true ∧ s.startPos ≠ none then
      { s with currentPos := some pos }
    else
      s
  | .mouseUp =>
    match s.isDragging, s.startPos, s.currentPos with
    | true, some startPos, some currentPos =>
      let newSelection : MinimapBounds :=
        { xmin := min startPos.x currentPos.x
          ymin := min startPos.y currentPos.y
          xmax := max startPos.x currentPos.x
          ymax := max startPos.y currentPos.y }
      let sel :=
        if newSelection.xmax - newSelection.xmin > 20 ∧
            newSelection.ymax - newSelection.ymin > 20 then
          some newSelection
        else
          s.selection
      { isDragging := false, startPos := none, currentPos := none,
        selection := sel }
    | _, _, _ => s

/-- The selector state after a sequence of handler invocations starting
from the mount state. -/
def runSelector (events : List SelectorEvent) : SelectorState :=
  events.foldl selectorStep initialSelectorState

/-- The inclusion test of the `.map` callback
(`src/services/openaiService.ts`, lines 136-141), as a Boolean predicate on
one detection: the bounding-box center lies in `mapBox`, boundaries
included. -/
def keepsIcon (mapBox : MinimapBounds) (icon : RawAgentDetection) : Bool :=
  let iconCenterY := (icon.boundingBox.ymin + icon.boundingBox.ymax) / 2
  let iconCenterX := (icon.boundingBox.xmin + icon.boundingBox.xmax) / 2
  decide (iconCenterX ≥ mapBox.xmin ∧ iconCenterX ≤ mapBox.xmax ∧
    iconCenterY ≥ mapBox.ymin ∧ iconCenterY ≤ mapBox.ymax)

/-- The kept branch of the `.map` callback
(`src/services/openaiService.ts`, lines 144-155), as the `PlayerPosition`
built for one kept detection. -/
def toPlayer (mapBox : MinimapBounds) (icon : RawAgentDetection) :
    PlayerPosition :=
  let mapWidth := mapBox.xmax - mapBox.xmin
  let mapHeight := mapBox.ymax - mapBox.ymin
  let iconCenterY := (icon.boundingBox.ymin + icon.boundingBox.ymax) / 2
  let iconCenterX := (icon.boundingBox.xmin + icon.boundingBox.xmax) / 2
  let relX := ((iconCenterX - mapBox.xmin) / mapWidth) * 100
  let relY := ((iconCenterY - mapBox.ymin) / mapHeight) * 100
  { team := icon.team
    agentGuess := icon.agentGuess
    x := max 0 (min 100 relX)
    y := max 0 (min 100 relY) }

/-!
The arithmetic of the `.map` callback, modelled at IEEE-double
special-value fidelity. The raw coordinates are finite JSON numbers, so the
only place a non-finite value can arise is the division by `mapWidth` /
`mapHeight`: in JavaScript `0/0` is `NaN` and `x/0` is `±Infinity`, and
`Math.min` / `Math.max` propagate `NaN`. `JSNum` carries those special
values alongside exact rationals; finite arithmetic is still read as exact,
as everywhere else in this development.
-/

/-- A JavaScript number as produced by the callback's division and
clamping: `NaN`, `±Infinity`, or a finite value (read as an exact
rational). -/
inductive JSNum where
  | nan
  | posInf
  | negInf
  | fin (q : ℚ)
  deriving Repr, DecidableEq

/-- JavaScript division of two finite numbers (the shapes occurring in the
callback: numerator `cx - xmin`, denominator `mapWidth`): `0/0` is `NaN`,
a nonzero numerator over `0` is `±Infinity` by sign, otherwise the exact
quotient. -/
def jsDiv (a b : ℚ) : JSNum :=
  if b = 0 then
    if a = 0 then JSNum.nan
    else if 0 < a then JSNum.posInf
    else JSNum.negInf
  else
    JSNum.fin (a / b)

/-- JavaScript multiplication of a possibly non-finite number by a finite
constant (the `* 100` step): `NaN` propagates, `±Infinity` by the sign of
the constant, `Infinity * 0` is `NaN`. -/
def jsMul (x : JSNum) (c : ℚ) : JSNum :=
  match x with
  | JSNum.nan => JSNum.nan
  | JSNum.posInf =>
    if 0 < c then JSNum.posInf else if c < 0 then JSNum.negInf else JSNum.nan
  | JSNum.negInf =>
    if 0 < c then JSNum.negInf else if c < 0 then JSNum.posInf else JSNum.nan
  | JSNum.fin a => JSNum.fin (a * c)

/-- `Math.min(c, x)` with a finite first argument: `NaN` propagates,
`Infinity` loses, `-Infinity` wins. -/
def jsMin (c : ℚ) (x : JSNum) : JSNum :=
  match x with
  | JSNum.nan => JSNum.nan
  | JSNum.posInf => JSNum.fin c
  | JSNum.negInf => JSNum.negInf
  | JSNum.fin a => JSNum.fin (min c a)

/-- `Math.max(c, x)` with a finite first argument: `NaN` propagates,
`Infinity` wins, `-Infinity` loses. -/
def jsMax (c : ℚ) (x : JSNum) : JSNum :=
  match x with
  | JSNum.nan => JSNum.nan
  | JSNum.posInf => JSNum.posInf
  | JSNum.negInf => JSNum.fin c
  | JSNum.fin a => JSNum.fin (max c a)

/-- Whether a JavaScript number is a finite value inside `[lo, hi]`;
`NaN` and `±Infinity` are not. -/
def JSNum.between (lo hi : ℚ) : JSNum → Bool
  | JSNum.fin q => decide (lo ≤ q ∧ q ≤ hi)
  | _ => false

/-- A `PlayerPosition` whose coordinates are JavaScript numbers, as the
source actually stores them. -/
structure PlayerPositionJS where
  team : String
  agentGuess : Option String
  x : JSNum
  y : JSNum
  deriving Repr, DecidableEq

/-- The `.map` callback body of `analyzeWithOpenAI`
(`src/services/openaiService.ts`, lines 131-156) once more, with the
coordinate arithmetic at JavaScript fidelity: the centers, widths and the
inclusion test involve only finite raw numbers and stay exact, while the
`relX`/`relY` pipeline — division, `* 100`, `Math.min`, `Math.max` — runs
in `JSNum`, so a zero-width or zero-height `mapBox` produces `NaN` exactly
as the source does. -/
def processIconJS (mapBox : MinimapBounds) (icon : RawAgentDetection) :
    Option PlayerPositionJS :=
  let mapWidth := mapBox.xmax - mapBox.xmin
  let mapHeight := mapBox.ymax - mapBox.ymin
  let iconCenterY := (icon.boundingBox.ymin + icon.boundingBox.ymax) / 2
  let iconCenterX := (icon.boundingBox.xmin + icon.boundingBox.xmax) / 2
  if iconCenterX ≥ mapBox.xmin ∧ iconCenterX ≤ mapBox.xmax ∧
      iconCenterY ≥ mapBox.ymin ∧ iconCenterY ≤ mapBox.ymax then
    let relX := jsMul (jsDiv (iconCenterX - mapBox.xmin) mapWidth) 100
    let relY := jsMul (jsDiv (iconCenterY - mapBox.ymin) mapHeight) 100
    some { team := icon.team
           agentGuess := icon.agentGuess
           x := jsMax 0 (jsMin 100 relX)
           y := jsMax 0 (jsMin 100 relY) }
  else
    none

theorem processIcon_eq_if (mapBox : MinimapBounds) (icon : RawAgentDetection) :
    processIcon mapBox icon =
      if keepsIcon mapBox icon then some (toPlayer mapBox icon) else none := by
  by_cases h : (icon.boundingBox.xmin + icon.boundingBox.xmax) / 2 ≥ mapBox.xmin ∧
      (icon.boundingBox.xmin + icon.boundingBox.xmax) / 2 ≤ mapBox.xmax ∧
      (icon.boundingBox.ymin + icon.boundingBox.ymax) / 2 ≥ mapBox.ymin ∧
      (icon.boundingBox.ymin + icon.boundingBox.ymax) / 2 ≤ mapBox.ymax <;>
    simp [processIcon, keepsIcon, toPlayer, h]

theorem filterMap_processIcon_eq (mapBox : MinimapBounds)
    (l : List RawAgentDetection) :
    l.filterMap (processIcon mapBox) =
      (l.filter (keepsIcon mapBox)).map (toPlayer mapBox) := by
  induction l with
  | nil => rfl
  | cons icon rest ih =>
    rw [List.filterMap_cons, List.filter_cons, processIcon_eq_if]
    by_cases h : keepsIcon mapBox icon <;> simp [h, ih]

/-- C1: a raw detection survives the normalizer's filter exactly when its
bounding-box center `(cx, cy)` satisfies
`mapBox.xmin ≤ cx ≤ mapBox.xmax` and `mapBox.ymin ≤ cy ≤ mapBox.ymax`,
boundaries included; otherwise `processIcon` returns `none` (the detection
is dropped, no error path exists). -/
theorem processIcon_isSome_iff_center_inside (mapBox : MinimapBounds)
    (icon : RawAgentDetection) :
    (processIcon mapBox icon).isSome ↔
      (mapBox.xmin ≤ (icon.boundingBox.xmin + icon.boundingBox.xmax) / 2 ∧
       (icon.boundingBox.xmin + icon.boundingBox.xmax) / 2 ≤ mapBox.xmax ∧
       mapBox.ymin ≤ (icon.boundingBox.ymin + icon.boundingBox.ymax) / 2 ∧
       (icon.boundingBox.ymin + icon.boundingBox.ymax) / 2 ≤ mapBox.ymax) := by
  rw [processIcon_eq_if]
  by_cases h : keepsIcon mapBox icon <;>
    simp_all [keepsIcon, ge_iff_le]

/-- C2 counterexample: at the model-reported degenerate rectangle
`{xmin:100, ymin:0, xmax:100, ymax:200}` (taken verbatim, no validation),
the detection centered at `(100, 50)` passes the inclusive test and is
kept, but the source computes `relX = 0/0 = NaN`, which survives
`Math.min`/`Math.max`: the emitted `x` is `NaN`, not a number in
`[0, 100]`, refuting the claim as stated. -/
theorem processIconJS_nan_on_degenerate_box :
    processIconJS { ymin := 0, xmin := 100, ymax := 200, xmax := 100 }
        { team := "Red", agentGuess := none,
          boundingBox := { ymin := 40, xmin := 100, ymax := 60, xmax := 100 } } =
      some { team := "Red", agentGuess := none,
             x := JSNum.nan, y := JSNum.fin 25 } ∧
    JSNum.between 0 100 JSNum.nan = false := by
  constructor
  · simp only [processIconJS, jsDiv, jsMul, jsMin, jsMax]
    norm_num [min_def, max_def]
  · rfl

/-- C2 (amended): when the resolved rectangle is non-degenerate
(`xmin < xmax` and `ymin < ymax`), every kept detection's emitted
coordinates are finite, equal to the clamped scaled center
`max 0 (min 100 ((cx - xmin) / (xmax - xmin) * 100))` (same for `y`), and
those values lie in `[0, 100]`; with a degenerate rectangle a kept
detection's coordinate is `NaN` instead. -/
theorem processIconJS_some_clamped (mapBox : MinimapBounds)
    (icon : RawAgentDetection) (p : PlayerPositionJS)
    (hx : mapBox.xmin < mapBox.xmax) (hy : mapBox.ymin < mapBox.ymax)
    (h : processIconJS mapBox icon = some p) :
    p.x = JSNum.fin (max 0 (min 100
        (((icon.boundingBox.xmin + icon.boundingBox.xmax) / 2 - mapBox.xmin) /
          (mapBox.xmax - mapBox.xmin) * 100))) ∧
    p.y = JSNum.fin (max 0 (min 100
        (((icon.boundingBox.ymin + icon.boundingBox.ymax) / 2 - mapBox.ymin) /
          (mapBox.ymax - mapBox.ymin) * 100))) ∧
    JSNum.between 0 100 p.x = true ∧ JSNum.between 0 100 p.y = true := by
  have hwx : mapBox.xmax - mapBox.xmin ≠ 0 := sub_ne_zero.mpr (ne_of_gt hx)
  have hwy : mapBox.ymax - mapBox.ymin ≠ 0 := sub_ne_zero.mpr (ne_of_gt hy)
  simp only [processIconJS] at h
  split at h
  · simp only [Option.some.injEq] at h
    subst h
    simp only [jsDiv, if_neg hwx, if_neg hwy, jsMul, jsMin, jsMax]
    refine ⟨by trivial, by trivial, ?_, ?_⟩ <;>
    · simp only [JSNum.between, decide_eq_true_eq]
      exact ⟨le_max_left _ _, max_le (by norm_num) (min_le_left _ _)⟩
  · exact absurd h (Option.noConfusion)

/-- C2 witness: a concrete non-degenerate rectangle and kept detection,
with the amended theorem applied to it. -/
theorem processIconJS_some_clamped_witness :
    ({ ymin := 0, xmin := 0, ymax := 200, xmax := 200 } :
        MinimapBounds).xmin < 200 ∧
    processIconJS { ymin := 0, xmin := 0, ymax := 200, xmax := 200 }
        { team := "Red", agentGuess := some "Jett",
          boundingBox := { ymin := 50, xmin := 50, ymax := 70, xmax := 70 } } =
      some { team := "Red", agentGuess := some "Jett",
             x := JSNum.fin 30, y := JSNum.fin 30 } ∧
    JSNum.between 0 100 (JSNum.fin 30) = true := by
  have h : processIconJS { ymin := 0, xmin := 0, ymax := 200, xmax := 200 }
      { team := "Red", agentGuess := some "Jett",
        boundingBox := { ymin := 50, xmin := 50, ymax := 70, xmax := 70 } } =
      some { team := "Red", agentGuess := some "Jett",
             x := JSNum.fin 30, y := JSNum.fin 30 } := by
    simp only [processIconJS, jsDiv, jsMul, jsMin, jsMax]
    norm_num [min_def, max_def]
  have hc := processIconJS_some_clamped
    { ymin := 0, xmin := 0, ymax := 200, xmax := 200 }
    { team := "Red", agentGuess := some "Jett",
      boundingBox := { ymin := 50, xmin := 50, ymax := 70, xmax := 70 } }
    { team := "Red", agentGuess := some "Jett",
      x := JSNum.fin 30, y := JSNum.fin 30 }
    (by norm_num) (by norm_num) h
  exact ⟨by norm_num, h, hc.2.2.1⟩

/-- C3: when manual bounds are supplied, they are used unconditionally:
the returned `minimapBounds` equals the manual rectangle and the players
are filtered and scaled against that same rectangle, whatever
`minimapLocation` the model reported. -/
theorem postProcess_manual_bounds_win (raw : RawAnalysisResponse)
    (mb : MinimapBounds) :
    (postProcess raw (some mb)).minimapBounds = mb ∧
    (postProcess raw (some mb)).players =
      raw.detectedIcons.filterMap (processIcon mb) :=
  ⟨rfl, rfl⟩

/-- C4: with no manual bounds and no model-reported `minimapLocation`, the
resolved rectangle is exactly `{xmin:0, ymin:0, xmax:200, ymax:200}`, both
returned as `minimapBounds` and used for filtering and scaling. -/
theorem postProcess_default_bounds (raw : RawAnalysisResponse)
    (h : raw.minimapLocation = none) :
    (postProcess raw none).minimapBounds =
      { xmin := 0, ymin := 0, xmax := 200, ymax := 200 } ∧
    (postProcess raw none).players =
      raw.detectedIcons.filterMap
        (processIcon { xmin := 0, ymin := 0, xmax := 200, ymax := 200 }) := by
  simp [postProcess, resolveMapBox, h]

/-- C4 witness: a concrete raw response with no `minimapLocation`. -/
theorem postProcess_default_bounds_witness :
    (postProcess
        { mapName := "Haven", minimapLocation := none, detectedIcons := [],
          summary := "s" } none).minimapBounds =
      { xmin := 0, ymin := 0, xmax := 200, ymax := 200 } :=
  (postProcess_default_bounds
    { mapName := "Haven", minimapLocation := none, detectedIcons := [],
      summary := "s" } rfl).1

/-- C5: the emitted players are exactly the kept detections, one
`PlayerPosition` per kept detection, in the original detection order:
the output list is the input list filtered by the inclusion test and then
mapped to positions. -/
theorem postProcess_players_order (raw : RawAnalysisResponse)
    (manualBounds : Option MinimapBounds) :
    (postProcess raw manualBounds).players =
      (raw.detectedIcons.filter
          (keepsIcon (resolveMapBox manualBounds raw))).map
        (toPlayer (resolveMapBox manualBounds raw)) :=
  filterMap_processIcon_eq _ _

/-- C6: the Gemini binding's post-processing (`src/unnamed/part_001`) and
the OpenAI binding's post-processing (`src/services/openaiService.ts`)
are the same normalization: on every raw response and optional manual
bounds they produce equal `AnalysisResult` values. -/
theorem geminiPostProcess_eq_postProcess (raw : RawAnalysisResponse)
    (manualBounds : Option MinimapBounds) :
    geminiPostProcess raw manualBounds = postProcess raw manualBounds :=
  rfl

/-- C7: the normalization is a pure deterministic function: two runs on
the same raw response and manual bounds agree on every component of the
result. -/
theorem postProcess_deterministic (raw : RawAnalysisResponse)
    (manualBounds : Option MinimapBounds) (r₁ r₂ : AnalysisResult)
    (h₁ : r₁ = postProcess raw manualBounds)
    (h₂ : r₂ = postProcess raw manualBounds) :
    r₁.minimapBounds = r₂.minimapBounds ∧ r₁.players = r₂.players ∧
    r₁.mapName = r₂.mapName ∧ r₁.summary = r₂.summary := by
  subst h₁; subst h₂; exact ⟨rfl, rfl, rfl, rfl⟩

/-- C7 witness: two runs on a concrete raw response agree. -/
theorem postProcess_deterministic_witness :
    (postProcess
        { mapName := "Bind", minimapLocation := none, detectedIcons := [],
          summary := "t" } none).players =
      (postProcess
        { mapName := "Bind", minimapLocation := none, detectedIcons := [],
          summary := "t" } none).players :=
  (postProcess_deterministic
    { mapName := "Bind", minimapLocation := none, detectedIcons := [],
      summary := "t" } none _ _ rfl rfl).2.1

theorem selectorStep_preserves_nondegenerate (s : SelectorState)
    (e : SelectorEvent)
    (h : ∀ b, s.selection = some b → b.xmin < b.xmax ∧ b.ymin < b.ymax) :
    ∀ b, (selectorStep s e).selection = some b →
      b.xmin < b.xmax ∧ b.ymin < b.ymax := by
  obtain ⟨d, sp, cp, sel⟩ := s
  cases e with
  | effectInit =>
    by_cases hs : sel = (none : Option MinimapBounds)
    · intro b hb
      simp [selectorStep, hs] at hb
      subst hb
      exact ⟨by norm_num, by norm_num⟩
    · intro b hb
      simp only [selectorStep] at hb
      rw [if_neg hs] at hb
      exact h b hb
  | mouseDown pos =>
    intro b hb
    simp [selectorStep] at hb
  | mouseMove pos =>
    intro b hb
    simp only [selectorStep] at hb
    split at hb <;> exact h b hb
  | mouseUp =>
    cases d with
    | false => exact h
    | true =>
      cases sp with
      | none => exact h
      | some startPos =>
        cases cp with
        | none => exact h
        | some currentPos =>
          intro b hb
          simp only [selectorStep] at hb
          split at hb
          · rename_i hbig
            simp only [Option.some.injEq] at hb
            subst hb
            constructor
            · have := hbig.1
              simp only at this
              linarith
            · have := hbig.2
              simp only at this
              linarith
          · exact h b hb

theorem runSelector_foldl_inv (events : List SelectorEvent) :
    ∀ s : SelectorState,
      (∀ b, s.selection = some b → b.xmin < b.xmax ∧ b.ymin < b.ymax) →
      ∀ b, (events.foldl selectorStep s).selection = some b →
        b.xmin < b.xmax ∧ b.ymin < b.ymax := by
  induction events with
  | nil => intro s hs; exact hs
  | cons e rest ih =>
    intro s hs
    exact ih (selectorStep s e)
      (selectorStep_preserves_nondegenerate s e hs)

/-- C8: every selection the region selector can hold (and hence every
rectangle its confirm button can pass to the analysis core) is
non-degenerate: after any sequence of handler invocations from the mount
state, a held selection satisfies `xmax > xmin` and `ymax > ymin`, because
only the initial default rectangle or a drag exceeding the 20-unit
minimum in both axes ever becomes the selection. -/
theorem runSelector_selection_nondegenerate (events : List SelectorEvent)
    (b : MinimapBounds) (h : (runSelector events).selection = some b) :
    b.xmin < b.xmax ∧ b.ymin < b.ymax :=
  runSelector_foldl_inv events initialSelectorState
    (fun _ hb => by simp [initialSelectorState] at hb) b h

/-- C8 witness: after just the mount effect, the held selection is the
default rectangle, and the theorem yields its non-degeneracy. -/
theorem runSelector_selection_nondegenerate_witness :
    (runSelector [SelectorEvent.effectInit]).selection =
      some { xmin := 0, ymin := 0, xmax := 250, ymax := 250 } ∧
    (0 : ℚ) < 250 := by
  have h : (runSelector [SelectorEvent.effectInit]).selection =
      some { xmin := 0, ymin := 0, xmax := 250, ymax := 250 } := by
    simp [runSelector, initialSelectorState, selectorStep]
  exact ⟨h, (runSelector_selection_nondegenerate [SelectorEvent.effectInit] _ h).1⟩

/-- C9: for a non-degenerate resolved rectangle, the unclamped ratios of a
kept detection already lie in `[0, 100]` under exact arithmetic, so the
clamp is the identity on kept detections: the emitted coordinates equal
the raw ratios. -/
theorem processIcon_clamp_identity (mapBox : MinimapBounds)
    (icon : RawAgentDetection) (p : PlayerPosition)
    (hx : mapBox.xmin < mapBox.xmax) (hy : mapBox.ymin < mapBox.ymax)
    (h : processIcon mapBox icon = some p) :
    0 ≤ ((icon.boundingBox.xmin + icon.boundingBox.xmax) / 2 - mapBox.xmin) /
        (mapBox.xmax - mapBox.xmin) * 100 ∧
    ((icon.boundingBox.xmin + icon.boundingBox.xmax) / 2 - mapBox.xmin) /
        (mapBox.xmax - mapBox.xmin) * 100 ≤ 100 ∧
    0 ≤ ((icon.boundingBox.ymin + icon.boundingBox.ymax) / 2 - mapBox.ymin) /
        (mapBox.ymax - mapBox.ymin) * 100 ∧
    ((icon.boundingBox.ymin + icon.boundingBox.ymax) / 2 - mapBox.ymin) /
        (mapBox.ymax - mapBox.ymin) * 100 ≤ 100 ∧
    p.x = ((icon.boundingBox.xmin + icon.boundingBox.xmax) / 2 - mapBox.xmin) /
        (mapBox.xmax - mapBox.xmin) * 100 ∧
    p.y = ((icon.boundingBox.ymin + icon.boundingBox.ymax) / 2 - mapBox.ymin) /
        (mapBox.ymax - mapBox.ymin) * 100 := by
  rw [processIcon_eq_if] at h
  by_cases hk : keepsIcon mapBox icon
  · have hc := of_decide_eq_true hk
    obtain ⟨hx1, hx2, hy1, hy2⟩ := hc
    simp only [hk, if_true, Option.some.injEq] at h
    subst h
    have hwx : (0 : ℚ) < mapBox.xmax - mapBox.xmin := sub_pos.mpr hx
    have hwy : (0 : ℚ) < mapBox.ymax - mapBox.ymin := sub_pos.mpr hy
    have h0x : 0 ≤ ((icon.boundingBox.xmin + icon.boundingBox.xmax) / 2 -
        mapBox.xmin) / (mapBox.xmax - mapBox.xmin) * 100 :=
      mul_nonneg (div_nonneg (by linarith) hwx.le) (by norm_num)
    have h0y : 0 ≤ ((icon.boundingBox.ymin + icon.boundingBox.ymax) / 2 -
        mapBox.ymin) / (mapBox.ymax - mapBox.ymin) * 100 :=
      mul_nonneg (div_nonneg (by linarith) hwy.le) (by norm_num)
    have hdx : ((icon.boundingBox.xmin + icon.boundingBox.xmax) / 2 -
        mapBox.xmin) / (mapBox.xmax - mapBox.xmin) ≤ 1 :=
      (div_le_one hwx).mpr (by linarith)
    have hdy : ((icon.boundingBox.ymin + icon.boundingBox.ymax) / 2 -
        mapBox.ymin) / (mapBox.ymax - mapBox.ymin) ≤ 1 :=
      (div_le_one hwy).mpr (by linarith)
    have h100x : ((icon.boundingBox.xmin + icon.boundingBox.xmax) / 2 -
        mapBox.xmin) / (mapBox.xmax - mapBox.xmin) * 100 ≤ 100 := by
      nlinarith
    have h100y : ((icon.boundingBox.ymin + icon.boundingBox.ymax) / 2 -
        mapBox.ymin) / (mapBox.ymax - mapBox.ymin) * 100 ≤ 100 := by
      nlinarith
    refine ⟨h0x, h100x, h0y, h100y, ?_, ?_⟩
    · show max 0 (min 100 _) = _
      rw [min_eq_right h100x, max_eq_right h0x]
    · show max 0 (min 100 _) = _
      rw [min_eq_right h100y, max_eq_right h0y]
  · simp [hk] at h

/-- C9 witness: a concrete non-degenerate rectangle and kept detection on
which the emitted coordinate equals the unclamped ratio. -/
theorem processIcon_clamp_identity_witness :
    ({ ymin := 0, xmin := 0, ymax := 200, xmax := 200 } :
        MinimapBounds).xmin < 200 ∧
    processIcon { ymin := 0, xmin := 0, ymax := 200, xmax := 200 }
        { team := "Blue", agentGuess := none,
          boundingBox := { ymin := 30, xmin := 30, ymax := 50, xmax := 50 } } =
      some { team := "Blue", agentGuess := none, x := 20, y := 20 } ∧
    (20 : ℚ) = ((30 + 50) / 2 - 0) / (200 - 0) * 100 := by
  have h : processIcon { ymin := 0, xmin := 0, ymax := 200, xmax := 200 }
      { team := "Blue", agentGuess := none,
        boundingBox := { ymin := 30, xmin := 30, ymax := 50, xmax := 50 } } =
      some { team := "Blue", agentGuess := none, x := 20, y := 20 } := by
    simp only [processIcon]
    norm_num [min_def, max_def]
  have hc := processIcon_clamp_identity
    { ymin := 0, xmin := 0, ymax := 200, xmax := 200 }
    { team := "Blue", agentGuess := none,
      boundingBox := { ymin := 30, xmin := 30, ymax := 50, xmax := 50 } }
    { team := "Blue", agentGuess := none, x := 20, y := 20 }
    (by norm_num) (by norm_num) h
  exact ⟨by norm_num, h, hc.2.2.2.2.1⟩

/-- C10: the normalizer changes only geometry: `mapName` and `summary`
pass through unchanged, and each kept detection's `team` and `agentGuess`
are copied verbatim, in order, into the corresponding `PlayerPosition`
(an absent `agentGuess` stays absent). -/
theorem postProcess_frame (raw : RawAnalysisResponse)
    (manualBounds : Option MinimapBounds) :
    (postProcess raw manualBounds).mapName = raw.mapName ∧
    (postProcess raw manualBounds).summary = raw.summary ∧
    (postProcess raw manualBounds).players.map
        (fun p => (p.team, p.agentGuess)) =
      (raw.detectedIcons.filter
          (keepsIcon (resolveMapBox manualBounds raw))).map
        (fun icon => (icon.team, icon.agentGuess)) := by
  refine ⟨rfl, rfl, ?_⟩
  have hp : (postProcess raw manualBounds).players =
      (raw.detectedIcons.filter
          (keepsIcon (resolveMapBox manualBounds raw))).map
        (toPlayer (resolveMapBox manualBounds raw)) :=
    filterMap_processIcon_eq _ _
  rw [hp, List.map_map]
  rfl

end Valomap
